import Mathlib

/-!
Shallow embedding of `src/bwx.py` (the `Session` and `CopyCommand` classes)
and proofs about the claims of the specification.

Python side effects are made explicit: the file system state handled by the
code (the session cache file and the hold-pid file), the process environment
variable `BW_SESSION`, and the outcomes of the external commands are inputs,
and each modelled operation returns the new state together with a trace of
the externally visible events it performs, in order.
-/

namespace Bwx

/-! ## Python string primitives -/

/-- The characters Python's `str.strip()` removes. -/
def pyIsSpace (c : Char) : Bool :=
  c == ' ' || c == '\t' || c == '\n' || c == '\r' || c == '\x0b' || c == '\x0c'

/-- Python `str.strip()` on a character list. -/
def pyStripList (l : List Char) : List Char :=
  ((l.dropWhile pyIsSpace).reverse.dropWhile pyIsSpace).reverse

/-- Python `str.strip()`. -/
def pyStrip (s : String) : String :=
  String.mk (pyStripList s.data)

/-- Digit runs as accepted by Python `int()` after the first character:
underscores are allowed only between digits. -/
def underscoreDigits : List Char → Bool
  | [] => true
  | ['_'] => false
  | '_' :: c :: rest => c.isDigit && underscoreDigits (c :: rest)
  | c :: rest => c.isDigit && underscoreDigits rest

/-- Numeric value of a digit list (underscores removed beforehand). -/
def digitsToNat (l : List Char) : Nat :=
  l.foldl (fun acc c => 10 * acc + (c.toNat - 48)) 0

/-- Parse an unsigned digit run as Python `int()` does (nonempty, starts
with a digit, underscores only between digits). -/
def pyDigits (l : List Char) : Option Nat :=
  match l with
  | [] => none
  | c :: _ =>
    if c.isDigit && underscoreDigits l then
      some (digitsToNat (l.filter (fun c => c != '_')))
    else none

/-- Python `int(s)`: surrounding whitespace stripped, optional sign,
digit run. `none` models a raised `ValueError`. -/
def pyParseInt (s : String) : Option Int :=
  match pyStripList s.data with
  | '+' :: rest => (pyDigits rest).map (fun n => (n : Int))
  | '-' :: rest => (pyDigits rest).map (fun n => -(n : Int))
  | rest => (pyDigits rest).map (fun n => (n : Int))

/-! ## File system and session state

`bwx.py` touches two files under the transient directory: the session cache
file (`BW_SESSION`) and the hold-pid file (`bw_clear.pid`).  A file is
modelled by its content together with its permission mode; `none` means the
file does not exist. -/

/-- A file on disk: its text content and its permission bits. -/
structure FileState where
  content : String
  mode : Nat
  deriving Repr, DecidableEq

/-- State relevant to `Session`: the cache file, the `BW_SESSION`
environment variable (`none` when unset), and the behaviour of the external
`bw unlock --raw` command (`none` models a non-zero exit raising
`SubprocessError`, `some out` its stdout). -/
structure SessionWorld where
  sessionFile : Option FileState
  env : Option String
  unlockOutput : Option String
  deriving Repr, DecidableEq

/-- Python truthiness of `os.getenv` results and of strings: a token is
"present" iff it is set and nonempty. -/
def truthy : Option String → Bool
  | none => false
  | some s => s != ""

/-- The universal-newlines translation `Path.read_text` performs (text
mode, `newline=None`): each `"\r\n"` pair and each lone `"\r"` in the
stored content reads back as `"\n"`. -/
def univNewlinesList : List Char → List Char
  | [] => []
  | '\r' :: '\n' :: rest => '\n' :: univNewlinesList rest
  | '\r' :: rest => '\n' :: univNewlinesList rest
  | c :: rest => c :: univNewlinesList rest

/-- Universal-newlines translation on strings. -/
def univNewlines (s : String) : String :=
  String.mk (univNewlinesList s.data)

/-- `Session._load_session`: if the cache file exists return its full
content as `read_text` delivers it — untrimmed, but with the text-mode
universal-newlines translation applied; otherwise return the empty
string. -/
def loadSession (sessionFile : Option FileState) : String :=
  match sessionFile with
  | some f => univNewlines f.content
  | none => ""

/-- `Path.touch(mode=0o600, exist_ok=True)`: creates an empty file with
mode `0o600` when absent; when the file already exists only its timestamp
changes — content and mode are untouched. -/
def pyTouch600 (f : Option FileState) : FileState :=
  match f with
  | some f => f
  | none => { content := "", mode := 0o600 }

/-- `Session._save_session(token)`: touch the cache file with create-mode
`0o600`, then overwrite its full content with the token.  `write_text`
in text mode maps `"\n"` to `os.linesep`, which on the POSIX platforms
this program runs on (it uses `os.fork`/`os.setsid`) is `"\n"` again, so
the stored content is the token verbatim. -/
def saveSession (token : String) (sessionFile : Option FileState) : FileState :=
  { pyTouch600 sessionFile with content := token }

/-- Errors `Session.unlock` can raise: `subprocessError` when
`subprocess.check_output` sees a non-zero exit, `valueError` for the
explicit `raise ValueError(...)`. -/
inductive SessionError
  | subprocessError
  | valueError (msg : String)
  deriving Repr, DecidableEq

/-- Result of `Session.unlock`: the raised error or the returned token,
the state afterwards, and whether the external unlock command ran and
whether the cache file was read. -/
structure UnlockResult where
  outcome : Except SessionError String
  sessionFile : Option FileState
  env : Option String
  unlockInvoked : Bool
  cacheRead : Bool
  deriving Repr

/-- `Session.unlock`, translated line by line: try the environment first,
then the cache file, then run `bw unlock --raw` and persist its stripped
output; on success place the token into the process environment. -/
def Session.unlock (w : SessionWorld) : UnlockResult :=
  if truthy w.env then
    { outcome := .ok (w.env.getD "")
      sessionFile := w.sessionFile
      env := w.env
      unlockInvoked := false
      cacheRead := false }
  else
    let token := loadSession w.sessionFile
    if token != "" then
      { outcome := .ok token
        sessionFile := w.sessionFile
        env := some token
        unlockInvoked := false
        cacheRead := true }
    else
      match w.unlockOutput with
      | none =>
        { outcome := .error .subprocessError
          sessionFile := w.sessionFile
          env := w.env
          unlockInvoked := true
          cacheRead := true }
      | some out =>
        let fresh := pyStrip out
        if fresh = "" then
          { outcome := .error (.valueError "no session token received")
            sessionFile := w.sessionFile
            env := w.env
            unlockInvoked := true
            cacheRead := true }
        else
          { outcome := .ok fresh
            sessionFile := some (saveSession fresh w.sessionFile)
            env := some fresh
            unlockInvoked := true
            cacheRead := true }

/-! ## CopyCommand

`CopyCommand.execute` fetches the password, spawns the copy-sink process,
cancels any pending clear timer, writes the secret to the sink, and forks a
detached timer.  The externally visible actions are recorded as an ordered
event trace; the forked timer process is modelled separately
(`timerRun`). -/

/-- Externally visible actions of a copy operation or of its timer
process, in program order. -/
inductive Event
  | fetchSecret (item : String)
  | sendSigterm (p : Int)
  | writeSecret (pw : String)
  | forkTimer (pid : Nat)
  | writePidFile (pid : Nat)
  | sleepFor (n : Nat)
  | runClear
  | removePidFile
  deriving Repr, DecidableEq

/-- Outcome of `os.kill(pid, SIGTERM)`: delivered, `ProcessLookupError`,
or `PermissionError`. -/
inductive KillOutcome
  | ok
  | noSuchProcess
  | permissionDenied
  deriving Repr, DecidableEq

/-- State and external behaviour relevant to `CopyCommand`:
whether the copy and clear sinks are configured, the hold-pid file content
(`none` when absent), the stdout of `bw get password <item>` (`none` models
a non-zero exit raising `SubprocessError`), the behaviour of `os.kill` per
target pid, the pid the forked timer obtains, and the configured clear
timeout. -/
structure CopyWorld where
  copyEnabled : Bool
  clearEnabled : Bool
  pidFile : Option String
  vaultOutput : Option String
  killOutcome : Int → KillOutcome
  timerPid : Nat
  timeout : Nat

/-- Exceptions that can escape `CopyCommand.execute`: the explicit
`ValueError` for a missing copy command, the `ValueError` raised by
`int()` on unparseable pid-file content, and a `PermissionError` from
`os.kill`. -/
inductive CopyError
  | copyNotConfigured
  | intParseError
  | permissionError
  deriving Repr, DecidableEq

/-- Result of `CopyCommand.execute`: normal return or a raised
exception. -/
inductive ExecOutcome
  | ok
  | raised (e : CopyError)
  deriving Repr, DecidableEq

/-- `CopyCommand._copy_clear_cancel`: if the pid file is absent, do
nothing.  Otherwise parse its content with `int()` — a parse failure
raises `ValueError` (the call is outside the `try`).  Then `os.kill`: a
`ProcessLookupError` is caught and ignored; any other failure (modelled:
`PermissionError`) propagates. -/
def copyClearCancel (w : CopyWorld) : Except CopyError (List Event) :=
  match w.pidFile with
  | none => .ok []
  | some s =>
    match pyParseInt s with
    | none => .error .intParseError
    | some p =>
      match w.killOutcome p with
      | .ok => .ok [.sendSigterm p]
      | .noSuchProcess => .ok []
      | .permissionDenied => .error .permissionError

/-- The parent-side effect of `CopyCommand._copy_clear_fork`: when the
clear sink is not configured it returns at once; otherwise it forks the
timer child and returns. -/
def copyClearForkParent (w : CopyWorld) : List Event :=
  if w.clearEnabled then [.forkTimer w.timerPid] else []

/-- `CopyCommand.execute item`, translated line by line: check the copy
sink is configured, fetch the password (a `SubprocessError` returns
silently), strip it, spawn the copy-sink process, run
`_copy_clear_cancel`, hand the secret to the sink via `communicate`, and
fork the clear timer. -/
def CopyCommand.execute (w : CopyWorld) (item : String) : ExecOutcome × List Event :=
  if !w.copyEnabled then (.raised .copyNotConfigured, [])
  else
    match w.vaultOutput with
    | none => (.ok, [.fetchSecret item])
    | some raw =>
      let pw := pyStrip raw
      match copyClearCancel w with
      | .error e => (.raised e, [.fetchSecret item])
      | .ok cev =>
        (.ok, .fetchSecret item :: cev ++ [.writeSecret pw] ++ copyClearForkParent w)

/-- How the timer child terminated: timeout elapsed and the clear sink ran
(`fired`), or SIGTERM arrived and the handler exited (`cancelled`). -/
inductive TimerExit
  | fired
  | cancelled
  deriving Repr, DecidableEq

/-- The body of the timer child inside the `try`: write its own pid to the
pid file, sleep for the configured timeout, run the clear command. -/
def timerBody (w : CopyWorld) (childPid : Nat) : List Event :=
  [.writePidFile childPid, .sleepFor w.timeout, .runClear]

/-- The timer child of `CopyCommand._copy_clear_fork`.  `sigAt = none`:
no SIGTERM arrives, the body runs to completion and the `finally` block
runs `_copy_clear_cleanup` (removing the pid file) before `os._exit(0)`.
`sigAt = some k`: SIGTERM is delivered after the first `k` body steps;
the installed handler runs `_copy_clear_cleanup(signum)`, which removes
the pid file and calls `os._exit(0)` immediately. -/
def timerRun (w : CopyWorld) (childPid : Nat) (sigAt : Option Nat) :
    List Event × TimerExit :=
  match sigAt with
  | none => (timerBody w childPid ++ [.removePidFile], .fired)
  | some k => ((timerBody w childPid).take k ++ [.removePidFile], .cancelled)

/-- Effect of one event on the hold-pid file (its content, `none` when the
file is absent): `write_text` creates or truncates, `unlink(missing_ok)`
removes idempotently, everything else leaves it alone. -/
def applyPidEvent (pf : Option String) : Event → Option String
  | .writePidFile p => some (toString p)
  | .removePidFile => none
  | _ => pf

/-- Hold-pid file content after a trace of events. -/
def applyPidEvents (pf : Option String) (evs : List Event) : Option String :=
  evs.foldl applyPidEvent pf

/-! ## Theorems: session claims -/

/-- Concrete world: environment token, cache-file token and unlock stub
all available simultaneously. -/
def wAllSources : SessionWorld :=
  { sessionFile := some ⟨"cachetok", 0o600⟩, env := some "envtok", unlockOutput := some "freshtok" }

/-- Concrete world: no token anywhere and a failing unlock command. -/
def wNothing : SessionWorld :=
  { sessionFile := none, env := none, unlockOutput := none }

/-- Concrete world: no token anywhere, unlock command prints a padded
token. -/
def wFreshOnly : SessionWorld :=
  { sessionFile := none, env := none, unlockOutput := some " tok-123\n" }

/-- Concrete world: cache file holding a single space, no environment
token. -/
def wSpaceCache : SessionWorld :=
  { sessionFile := some ⟨" ", 0o600⟩, env := none, unlockOutput := some "freshtok" }

/-- C3: `Session.unlock` consults sources in the order environment
variable, cache file, external unlock command, short-circuiting on first
success.  A nonempty environment token is returned as-is: the unlock
command is not invoked and the cache file is neither read nor written.
When the environment yields nothing but the cache file holds a nonempty
token, the unlock command is not invoked and the cache token is
returned. -/
theorem unlock_resolution_order (w : SessionWorld) :
    (∀ t, w.env = some t → t ≠ "" →
      (Session.unlock w).outcome = .ok t ∧
      (Session.unlock w).unlockInvoked = false ∧
      (Session.unlock w).cacheRead = false ∧
      (Session.unlock w).sessionFile = w.sessionFile) ∧
    (truthy w.env = false → loadSession w.sessionFile ≠ "" →
      (Session.unlock w).unlockInvoked = false ∧
      (Session.unlock w).outcome = .ok (loadSession w.sessionFile) ∧
      (Session.unlock w).sessionFile = w.sessionFile) := by
  constructor
  · intro t ht hne
    simp [Session.unlock, truthy, ht, hne]
  · intro henv hload
    simp [Session.unlock, henv, hload]

/-- C3 witness: an environment token, a cache-file token and an unlock
stub all available at once; resolution returns the environment token,
invokes nothing and leaves the cache file untouched. -/
theorem unlock_resolution_order_witness :
    (Session.unlock wAllSources).outcome = .ok "envtok" ∧
    (Session.unlock wAllSources).unlockInvoked = false ∧
    (Session.unlock wAllSources).cacheRead = false ∧
    (Session.unlock wAllSources).sessionFile = some ⟨"cachetok", 0o600⟩ :=
  (unlock_resolution_order wAllSources).1 "envtok" rfl (by decide)

/-- C4: with no environment token and an empty cache, `Session.unlock`
raises `SubprocessError` when the unlock command exits non-zero and
`ValueError` when its stripped output is empty, and in both failure cases
neither the cache file nor the environment variable changes; on success
the stripped token is persisted via `_save_session` and placed into the
environment. -/
theorem unlock_failure_no_partial_state (w : SessionWorld)
    (henv : truthy w.env = false)
    (hload : loadSession w.sessionFile = "") :
    (w.unlockOutput = none →
      (Session.unlock w).outcome = .error .subprocessError ∧
      (Session.unlock w).sessionFile = w.sessionFile ∧
      (Session.unlock w).env = w.env) ∧
    (∀ out, w.unlockOutput = some out → pyStrip out = "" →
      (Session.unlock w).outcome = .error (.valueError "no session token received") ∧
      (Session.unlock w).sessionFile = w.sessionFile ∧
      (Session.unlock w).env = w.env) ∧
    (∀ out, w.unlockOutput = some out → pyStrip out ≠ "" →
      (Session.unlock w).outcome = .ok (pyStrip out) ∧
      (Session.unlock w).sessionFile = some (saveSession (pyStrip out) w.sessionFile) ∧
      (Session.unlock w).env = some (pyStrip out)) := by
  refine ⟨?_, ?_, ?_⟩
  · intro hout
    simp [Session.unlock, henv, hload, hout]
  · intro out hout hempty
    simp [Session.unlock, henv, hload, hout, hempty]
  · intro out hout hne
    simp [Session.unlock, henv, hload, hout, hne]

/-- C4 witness: empty environment and cache; a failing unlock command
raises and leaves no state behind, and a succeeding one persists the
stripped token. -/
theorem unlock_failure_no_partial_state_witness :
    ((Session.unlock wNothing).outcome = .error .subprocessError ∧
      (Session.unlock wNothing).sessionFile = none ∧
      (Session.unlock wNothing).env = none) ∧
    ((Session.unlock wFreshOnly).outcome = .ok (pyStrip " tok-123\n") ∧
      (Session.unlock wFreshOnly).sessionFile =
        some (saveSession (pyStrip " tok-123\n") none) ∧
      (Session.unlock wFreshOnly).env = some (pyStrip " tok-123\n")) :=
  ⟨(unlock_failure_no_partial_state wNothing rfl rfl).1 rfl,
   (unlock_failure_no_partial_state wFreshOnly rfl rfl).2.2 " tok-123\n" rfl (by decide)⟩

/-- C5 counterexample: a cache file holding a single space.
`_load_session` returns the content untrimmed — the claimed trimming
would give the empty string — and `unlock` accepts the whitespace-only
content as a nonempty token. -/
theorem load_session_untrimmed_counterexample :
    loadSession (some ⟨" ", 0o600⟩) = " " ∧
    pyStrip " " = "" ∧
    (" " : String) ≠ "" ∧
    (Session.unlock wSpaceCache).outcome = .ok " " :=
  ⟨rfl, by decide, by decide, rfl⟩

/-- C5 (amended): `_load_session` applies no trimming: it returns the
cache-file contents as `read_text` delivers them, subject only to the
text-mode universal-newlines translation; an empty or missing file
yields the empty string ("no token"), while a file whose content reads
back nonempty — including whitespace-only content — short-circuits
resolution, its untrimmed content becoming the session token. -/
theorem load_session_no_trim (w : SessionWorld) (henv : truthy w.env = false) :
    (w.sessionFile = none → loadSession w.sessionFile = "") ∧
    (∀ f, w.sessionFile = some f → loadSession w.sessionFile = univNewlines f.content) ∧
    (∀ f, w.sessionFile = some f → univNewlines f.content ≠ "" →
      (Session.unlock w).outcome = .ok (univNewlines f.content) ∧
      (Session.unlock w).unlockInvoked = false) := by
  refine ⟨?_, ?_, ?_⟩
  · intro h; simp [loadSession, h]
  · intro f h; simp [loadSession, h]
  · intro f h hne
    have hload : loadSession w.sessionFile = univNewlines f.content := by
      simp [loadSession, h]
    simp [Session.unlock, henv, hload, hne]

/-- C5 (amended) witness: a cache file containing a single space is
returned with the space intact, and its content becomes the session
token. -/
theorem load_session_no_trim_witness :
    loadSession wSpaceCache.sessionFile = univNewlines " " ∧
    univNewlines " " = " " ∧
    (Session.unlock wSpaceCache).outcome = .ok (univNewlines " ") ∧
    (Session.unlock wSpaceCache).unlockInvoked = false :=
  ⟨(load_session_no_trim wSpaceCache rfl).2.1 ⟨" ", 0o600⟩ rfl,
   by decide,
   ((load_session_no_trim wSpaceCache rfl).2.2 ⟨" ", 0o600⟩ rfl (by decide)).1,
   ((load_session_no_trim wSpaceCache rfl).2.2 ⟨" ", 0o600⟩ rfl (by decide)).2⟩

/-- C6 counterexample: the cache file pre-exists with mode `0o644`;
`Path.touch(mode=0o600, exist_ok=True)` does not change the mode of an
existing file, so after `_save_session` the mode is still `0o644`. -/
theorem save_session_preexisting_mode_counterexample :
    (saveSession "tok" (some ⟨"old", 0o644⟩)).mode = 0o644 ∧
    (0o644 : Nat) ≠ 0o600 := by
  exact ⟨rfl, by decide⟩

/-- C6 (amended): after `_save_session(token)` the cache file exists with
content `token`; when the file was absent it is created with mode `0o600`,
but when it pre-existed its previous mode — whatever it was — is kept
(`touch` sets the mode only at creation). -/
theorem save_session_mode (token : String) :
    (saveSession token none).mode = 0o600 ∧
    (∀ f, (saveSession token (some f)).mode = f.mode) ∧
    (∀ sf, (saveSession token sf).content = token) := by
  refine ⟨rfl, fun f => rfl, fun sf => ?_⟩
  cases sf <;> rfl

/-- On a head that is not a carriage return, the universal-newlines
translation keeps the head and recurses on the tail. -/
theorem univNewlinesList_cons_ne (c : Char) (rest : List Char) (hc : c ≠ '\r') :
    univNewlinesList (c :: rest) = c :: univNewlinesList rest := by
  rw [univNewlinesList.eq_def]
  split <;> simp_all

/-- Universal-newlines translation is the identity on content free of
carriage returns. -/
theorem univNewlinesList_of_no_cr (l : List Char) (h : '\r' ∉ l) :
    univNewlinesList l = l := by
  induction l with
  | nil => rfl
  | cons c rest ih =>
    rw [List.mem_cons, not_or] at h
    rw [univNewlinesList_cons_ne c rest (fun e => h.1 e.symm), ih h.2]

/-- Universal-newlines translation is the identity on strings free of
carriage returns. -/
theorem univNewlines_of_no_cr (s : String) (h : '\r' ∉ s.data) :
    univNewlines s = s := by
  cases s with
  | mk data => simp only [univNewlines, univNewlinesList_of_no_cr data h]

/-- C10 counterexample: the token `"a\rb"` is stored verbatim by
`write_text` but `read_text`'s universal-newlines translation returns it
as `"a\nb"`, so the round-trip is not character for character. -/
theorem save_load_roundtrip_counterexample :
    loadSession (some (saveSession "a\rb" none)) = "a\nb" ∧
    ("a\nb" : String) ≠ "a\rb" := by
  exact ⟨by decide, by decide⟩

/-- C10 (amended): after `_save_session token` the cache file exists and
`_load_session` returns `token` with `read_text`'s universal-newlines
translation applied (`"\r\n"` and lone `"\r"` become `"\n"`); for every
token containing no carriage return — in particular every token the
program itself saves — the round-trip is exact, character for character
(no trimming happens on either side of the file). -/
theorem save_load_roundtrip_translated (token : String) (sf : Option FileState) :
    loadSession (some (saveSession token sf)) = univNewlines token ∧
    ('\r' ∉ token.data → loadSession (some (saveSession token sf)) = token) := by
  have h1 : loadSession (some (saveSession token sf)) = univNewlines token := by
    cases sf <;> rfl
  exact ⟨h1, fun h => h1.trans (univNewlines_of_no_cr token h)⟩

/-- C10 (amended) witness: a carriage-return-free token round-trips
exactly through a fresh cache file. -/
theorem save_load_roundtrip_translated_witness :
    loadSession (some (saveSession "tok-123" none)) = univNewlines "tok-123" ∧
    loadSession (some (saveSession "tok-123" none)) = "tok-123" :=
  ⟨(save_load_roundtrip_translated "tok-123" none).1,
   (save_load_roundtrip_translated "tok-123" none).2 (by decide)⟩

/-! ## Theorems: copy-command claims -/

/-- Concrete copy world: both sinks configured, a pending timer recorded
under pid 42, vault returning a newline-terminated secret, signals
deliverable. -/
def wCopy : CopyWorld :=
  { copyEnabled := true
    clearEnabled := true
    pidFile := some "42"
    vaultOutput := some "s3cr3t\n"
    killOutcome := fun _ => .ok
    timerPid := 77
    timeout := 30 }

/-- `wCopy` with unparseable hold-pid content. -/
def wCorrupt : CopyWorld := { wCopy with pidFile := some "garbage" }

/-- `wCopy` where the old timer process is already gone. -/
def wGone : CopyWorld := { wCopy with killOutcome := fun _ => .noSuchProcess }

/-- `wCopy` where signal delivery is denied. -/
def wPermDenied : CopyWorld := { wCopy with killOutcome := fun _ => .permissionDenied }

/-- `wCopy` with no clear sink configured and no pid file. -/
def wNoClear : CopyWorld := { wCopy with clearEnabled := false, pidFile := none }

/-- Any trace ending in a pid-file removal leaves the pid file absent. -/
theorem applyPidEvents_append_remove (pf : Option String) (l : List Event) :
    applyPidEvents pf (l ++ [.removePidFile]) = none := by
  simp [applyPidEvents, List.foldl_append, applyPidEvent]

/-- An `.ok` result of `_copy_clear_cancel` carries either no event or a
single SIGTERM. -/
theorem copyClearCancel_ok_shape (w : CopyWorld) (cev : List Event)
    (h : copyClearCancel w = .ok cev) :
    cev = [] ∨ ∃ p, cev = [.sendSigterm p] := by
  unfold copyClearCancel at h
  split at h
  · injection h with h; exact Or.inl h.symm
  · split at h
    · simp at h
    · split at h
      · injection h with h; exact Or.inr ⟨_, h.symm⟩
      · injection h with h; exact Or.inl h.symm
      · simp at h

/-- C1: whenever the hold-pid file names a pending timer (its content
parses to a pid, and that process exists so the signal is delivered) and
the copy operation reaches the hand-off, the SIGTERM to the old timer's
pid occurs in the event trace strictly before the new secret is written
to the copy sink's input channel. -/
theorem cancel_before_write (w : CopyWorld) (item raw s : String) (p : Int)
    (hcopy : w.copyEnabled = true)
    (hvault : w.vaultOutput = some raw)
    (hpid : w.pidFile = some s)
    (hparse : pyParseInt s = some p)
    (hkill : w.killOutcome p = .ok) :
    ∃ i j, i < j ∧
      (CopyCommand.execute w item).2.get? i = some (.sendSigterm p) ∧
      (CopyCommand.execute w item).2.get? j = some (.writeSecret (pyStrip raw)) := by
  refine ⟨1, 2, by omega, ?_, ?_⟩ <;>
    simp [CopyCommand.execute, copyClearCancel, hcopy, hvault, hpid, hparse, hkill]

/-- C1 witness: pid file "42", live process, secret "s3cr3t\n". -/
theorem cancel_before_write_witness :
    ∃ i j, i < j ∧
      (CopyCommand.execute wCopy "mail").2.get? i = some (.sendSigterm 42) ∧
      (CopyCommand.execute wCopy "mail").2.get? j = some (.writeSecret (pyStrip "s3cr3t\n")) :=
  cancel_before_write wCopy "mail" "s3cr3t\n" "42" 42 rfl rfl rfl (by decide) rfl

/-- C2: every terminal path of the timer process removes the hold-pid
file.  On normal completion the clear sink runs and the pid file is
removed afterwards; on SIGTERM before the clear step the handler removes
the pid file and exits as cancelled with the clear sink never invoked; no
terminating path through the timer's code leaves the pid file in
place. -/
theorem timer_terminal_cleanup (w : CopyWorld) (childPid : Nat) :
    (∀ sigAt pf0, applyPidEvents pf0 (timerRun w childPid sigAt).1 = none) ∧
    ((timerRun w childPid none).2 = .fired ∧
      ∃ i j, i < j ∧
        (timerRun w childPid none).1.get? i = some .runClear ∧
        (timerRun w childPid none).1.get? j = some .removePidFile) ∧
    (∀ k, k ≤ 2 →
      (timerRun w childPid (some k)).2 = .cancelled ∧
      Event.runClear ∉ (timerRun w childPid (some k)).1) := by
  refine ⟨?_, ⟨rfl, 2, 3, by omega, ?_, ?_⟩, ?_⟩
  · intro sigAt pf0
    cases sigAt <;> exact applyPidEvents_append_remove ..
  · simp [timerRun, timerBody]
  · simp [timerRun, timerBody]
  · intro k hk
    refine ⟨rfl, ?_⟩
    interval_cases k <;> simp [timerRun, timerBody]

/-- C2 witness: SIGTERM after one body step (during the sleep) on a
concrete world: the pid file ends absent, the exit is `cancelled` and the
clear sink never ran. -/
theorem timer_terminal_cleanup_witness :
    applyPidEvents (some "42") (timerRun wCopy 77 (some 1)).1 = none ∧
    (timerRun wCopy 77 (some 1)).2 = .cancelled ∧
    Event.runClear ∉ (timerRun wCopy 77 (some 1)).1 :=
  ⟨(timer_terminal_cleanup wCopy 77).1 (some 1) (some "42"),
   ((timer_terminal_cleanup wCopy 77).2.2 1 (by decide)).1,
   ((timer_terminal_cleanup wCopy 77).2.2 1 (by decide)).2⟩

/-- C7 counterexample: hold-pid content "garbage".  The `int()` call in
`_copy_clear_cancel` sits outside the `try`, so the raised `ValueError`
propagates; `execute` aborts and the secret is never written — the copy
does not proceed, contradicting "treated as no pending clear". -/
theorem corrupt_pid_counterexample :
    (CopyCommand.execute wCorrupt "mail").1 = .raised .intParseError ∧
    (CopyCommand.execute wCorrupt "mail").2 = [.fetchSecret "mail"] ∧
    Event.writeSecret "s3cr3t" ∉ (CopyCommand.execute wCorrupt "mail").2 := by
  decide

/-- C7 (amended): a hold-pid file whose content is unparseable as an
integer is *not* treated as "no pending clear": the `ValueError` raised
by `int()` propagates out of `execute`, the copy aborts and the secret is
never written (the top-level handler then reports the error and exits
non-zero). -/
theorem corrupt_pid_aborts_copy (w : CopyWorld) (item raw s : String)
    (hcopy : w.copyEnabled = true)
    (hvault : w.vaultOutput = some raw)
    (hpid : w.pidFile = some s)
    (hparse : pyParseInt s = none) :
    (CopyCommand.execute w item).1 = .raised .intParseError ∧
    ∀ pw, Event.writeSecret pw ∉ (CopyCommand.execute w item).2 := by
  simp [CopyCommand.execute, copyClearCancel, hcopy, hvault, hpid, hparse]

/-- C7 (amended) witness: pid file "garbage", vault succeeding. -/
theorem corrupt_pid_aborts_copy_witness :
    (CopyCommand.execute wCorrupt "mail").1 = .raised .intParseError ∧
    ∀ pw, Event.writeSecret pw ∉ (CopyCommand.execute wCorrupt "mail").2 :=
  corrupt_pid_aborts_copy wCorrupt "mail" "s3cr3t\n" "garbage" rfl rfl rfl (by decide)

/-- C8 counterexample: only `ProcessLookupError` is caught in
`_copy_clear_cancel`; a permission-denied failure of `os.kill`
propagates, aborting `execute` before the secret is written —
contradicting "any other delivery failure is reported but does not abort
... the copy proceeds regardless". -/
theorem cancel_permission_counterexample :
    (CopyCommand.execute wPermDenied "mail").1 = .raised .permissionError ∧
    (CopyCommand.execute wPermDenied "mail").2 = [.fetchSecret "mail"] ∧
    Event.writeSecret "s3cr3t" ∉ (CopyCommand.execute wPermDenied "mail").2 := by
  decide

/-- C8 (amended): a target process that no longer exists is treated as
success — the `ProcessLookupError` is swallowed and the copy proceeds to
write the new secret — but any other delivery failure (modelled:
permission denied) propagates and aborts the copy before the secret is
written. -/
theorem cancel_failure_handling (w : CopyWorld) (item raw s : String) (p : Int)
    (hcopy : w.copyEnabled = true)
    (hvault : w.vaultOutput = some raw)
    (hpid : w.pidFile = some s)
    (hparse : pyParseInt s = some p) :
    (w.killOutcome p = .noSuchProcess →
      (CopyCommand.execute w item).1 = .ok ∧
      Event.writeSecret (pyStrip raw) ∈ (CopyCommand.execute w item).2) ∧
    (w.killOutcome p = .permissionDenied →
      (CopyCommand.execute w item).1 = .raised .permissionError ∧
      (CopyCommand.execute w item).2 = [.fetchSecret item]) := by
  constructor
  · intro hkill
    cases hce : w.clearEnabled <;>
      simp [CopyCommand.execute, copyClearCancel, copyClearForkParent,
        hcopy, hvault, hpid, hparse, hkill, hce]
  · intro hkill
    simp [CopyCommand.execute, copyClearCancel, hcopy, hvault, hpid, hparse, hkill]

/-- C8 (amended) witness: pid 42 already gone — copy proceeds; pid 42
with delivery denied — copy aborts before the write. -/
theorem cancel_failure_handling_witness :
    ((CopyCommand.execute wGone "mail").1 = .ok ∧
      Event.writeSecret (pyStrip "s3cr3t\n") ∈ (CopyCommand.execute wGone "mail").2) ∧
    ((CopyCommand.execute wPermDenied "mail").1 = .raised .permissionError ∧
      (CopyCommand.execute wPermDenied "mail").2 = [.fetchSecret "mail"]) :=
  ⟨(cancel_failure_handling wGone "mail" "s3cr3t\n" "42" 42 rfl rfl rfl (by decide)).1 rfl,
   (cancel_failure_handling wPermDenied "mail" "s3cr3t\n" "42" 42 rfl rfl rfl (by decide)).2 rfl⟩

/-- C9: when no clear sink is configured and the copy succeeds, the
secret is still handed to the copy sink, but no timer is forked, the
clear command never runs, and no operation touches the hold-pid file —
its content is exactly what it was before. -/
theorem no_clear_config_frame (w : CopyWorld) (item raw : String) (cev : List Event)
    (hclear : w.clearEnabled = false)
    (hcopy : w.copyEnabled = true)
    (hvault : w.vaultOutput = some raw)
    (hcancel : copyClearCancel w = .ok cev) :
    (CopyCommand.execute w item).1 = .ok ∧
    Event.writeSecret (pyStrip raw) ∈ (CopyCommand.execute w item).2 ∧
    (∀ q, Event.forkTimer q ∉ (CopyCommand.execute w item).2) ∧
    Event.runClear ∉ (CopyCommand.execute w item).2 ∧
    (∀ pf0, applyPidEvents pf0 (CopyCommand.execute w item).2 = pf0) := by
  rcases copyClearCancel_ok_shape w cev hcancel with h | ⟨p, h⟩ <;>
    subst h <;>
    simp [CopyCommand.execute, copyClearForkParent,
      applyPidEvents, applyPidEvent, hclear, hcopy, hvault, hcancel]

/-- C9 witness: no clear sink, no pid file, successful vault fetch: the
hand-off happens, nothing is forked, nothing is cleared, the (absent) pid
file stays absent. -/
theorem no_clear_config_frame_witness :
    (CopyCommand.execute wNoClear "mail").1 = .ok ∧
    Event.writeSecret (pyStrip "s3cr3t\n") ∈ (CopyCommand.execute wNoClear "mail").2 ∧
    Event.forkTimer 77 ∉ (CopyCommand.execute wNoClear "mail").2 ∧
    Event.runClear ∉ (CopyCommand.execute wNoClear "mail").2 ∧
    applyPidEvents none (CopyCommand.execute wNoClear "mail").2 = none :=
  ⟨(no_clear_config_frame wNoClear "mail" "s3cr3t\n" [] rfl rfl rfl rfl).1,
   (no_clear_config_frame wNoClear "mail" "s3cr3t\n" [] rfl rfl rfl rfl).2.1,
   (no_clear_config_frame wNoClear "mail" "s3cr3t\n" [] rfl rfl rfl rfl).2.2.1 77,
   (no_clear_config_frame wNoClear "mail" "s3cr3t\n" [] rfl rfl rfl rfl).2.2.2.1,
   (no_clear_config_frame wNoClear "mail" "s3cr3t\n" [] rfl rfl rfl rfl).2.2.2.2 none⟩

end Bwx
